import Mathlib

/-!
Verification of the cesty annotated-test discovery and source-transformation
engine (`src/test/extract.rs`, `src/test/mod.rs`, `src/error.rs`).

Modelling conventions:
* File text and text fragments are modelled as `List Char`; the Rust code
  indexes by UTF-8 bytes, which coincides with character indexing on the
  ASCII inputs the claims are about.
* The libclang front end is an external collaborator: the AST traversal is
  modelled as a list of `FnEvent`s, one per compound-statement-with-
  function-parent cursor, carrying exactly the data the `filter` callback
  reads from the cursor (spelling, extent offsets, location line/column).
* `std::fs::read_to_string` is modelled as returning the file contents that
  are passed in as an explicit argument (the file was already opened and
  parsed by clang, so the read succeeds).
* The `toml` crate is an external collaborator: `Config.from_comment_lines`
  is modelled as a function of the parse outcome (`TomlResult`).
* The `debug` field of `AlertInfo` (Rust source locations pushed by the
  `debuginfo!`/`debugpush!` macros) carries no information about the file
  under analysis and is omitted.
-/

namespace Cesty

/-! ## Diagnostic model (`src/error.rs`) -/

/-- Models `AlertCodeFix`: one `(column, comment)` fix annotation. -/
structure AlertCodeFix where
  relative_line : Nat
  column : Nat
  comment : String
deriving Repr, DecidableEq

/-- Models `AlertCode`: a source snippet with 1-based line number and fixes. -/
structure AlertCode where
  line : Nat
  code : List Char
  file : String
  fix : List AlertCodeFix
deriving Repr, DecidableEq

/-- Models `AlertExample` (a one-constructor enum wrapping `AlertCode`). -/
inductive AlertExample where
  | code : AlertCode → AlertExample
deriving Repr, DecidableEq

/-- Models `AlertInfo`.  The source field `example` is named `evidence` here
because `example` is a Lean keyword; the Rust-source-location `debug` field is
omitted (see module comment). -/
structure AlertInfo where
  description : String
  note : List String
  evidence : Option AlertExample
deriving Repr, DecidableEq

/-- Models `Alert`: a warning or an error. -/
inductive Alert where
  | warning : AlertInfo → Alert
  | error : AlertInfo → Alert
deriving Repr, DecidableEq

/-! ## Test configuration (`src/test/mod.rs`) -/

/-- Models `Settings` (the `settings` table of the embedded TOML config). -/
structure Settings where
  run : Bool
  stdout : Bool
  stdin : Bool
deriving Repr, DecidableEq

/-- Models `settings_bool_init`, the per-field serde default. -/
def settings_bool_init : Bool := false

/-- Models `impl Default for Settings` (run=true, stdout=false, stdin=false). -/
def Settings.default : Settings :=
  { run := true, stdout := false, stdin := false }

/-- Models `CompilerAppend`. -/
structure CompilerAppend where
  flags : List String
  libraries : List String
deriving Repr, DecidableEq

/-- Models `CompilerReplaceItem`. -/
structure CompilerReplaceItem where
  old : String
  new : String
deriving Repr, DecidableEq

/-- Models `CompilerReplace`. -/
structure CompilerReplace where
  flag : List CompilerReplaceItem
  library : List CompilerReplaceItem
deriving Repr, DecidableEq

/-- Models `Compiler`. -/
structure Compiler where
  name : Option String
  flags : List String
  libraries : List String
  append : Option CompilerAppend
  replace : Option CompilerReplace
deriving Repr, DecidableEq

/-- Models `#[derive(Default)]` for `Compiler`. -/
def Compiler.default : Compiler :=
  { name := none, flags := [], libraries := [], append := none, replace := none }

/-- Models `Config` (deserialized embedded test configuration). -/
structure Config where
  settings : Settings
  compiler : Compiler
  commands : List String
deriving Repr, DecidableEq

/-- Models `#[derive(Default)]` for `Config`.  Because `Settings` has an
explicit `Default` impl, `Config::default().settings.run` is `true`. -/
def Config.default : Config :=
  { settings := Settings.default, compiler := Compiler.default, commands := [] }

/-! ## Serde-level view of the `settings` table

`Settings` derives `Deserialize` with `#[serde(default = "settings_bool_init")]`
on each of `run`, `stdout`, `stdin`, and the `settings` field of `Config`
carries `#[serde(default = "Settings::default")]`.  A TOML document therefore
determines the `Settings` value through two distinct defaulting mechanisms,
modelled by the two functions below. -/

/-- A present `[settings]` table as it appears in the TOML source: each field
is either set or absent. -/
structure SettingsTable where
  run : Option Bool
  stdout : Option Bool
  stdin : Option Bool
deriving Repr, DecidableEq

/-- Deserialization of a present `[settings]` table: every absent field takes
the per-field serde default `settings_bool_init` (= `false`), per the
`#[serde(default = "settings_bool_init")]` attributes. -/
def Settings.deserialize (t : SettingsTable) : Settings :=
  { run := t.run.getD settings_bool_init
    stdout := t.stdout.getD settings_bool_init
    stdin := t.stdin.getD settings_bool_init }

/-- The `settings` field of a deserialized `Config`: an absent table falls
back to `Settings::default` per `#[serde(default = "Settings::default")]` on
the field; a present table is deserialized field by field. -/
def Config.settingsOfTable (t : Option SettingsTable) : Settings :=
  match t with
  | none => Settings.default
  | some t => Settings.deserialize t

/-! ## Walker data model (`src/test/extract.rs`) -/

/-- Models `Function` (name, return type spelling, argument type spellings). -/
structure Function where
  returns : String
  name : String
  name_slice : String
  args : List String
deriving Repr, DecidableEq

/-- Models `Range`: half-open offset spans for the function template (from the
function's start to just before the body) and the body (`{` to `}`). -/
structure Range where
  template : Nat × Nat
  body : Nat × Nat
deriving Repr, DecidableEq

/-- Models `ParsedTest`. -/
structure ParsedTest where
  config : Config
  function : Function
  range : Range
deriving Repr, DecidableEq

/-- Models `Environment`: the three synthesized textual views. -/
structure Environment where
  full : List Char
  mainless : List Char
  templated : List Char
deriving Repr, DecidableEq

/-- Models `#[derive(Default)]` for `Environment`: all three strings empty. -/
def Environment.default : Environment :=
  { full := [], mainless := [], templated := [] }

/-- Models `defaults::DEFAULT_FUNCTION_PREFIX`. -/
def DEFAULT_FUNCTION_PREFIX : String := "cesty_"

/-- One AST traversal event: the data the `filter` callback of
`visitor::visit` reads from a `CXCursor_CompoundStmt` whose semantic parent is
a `CXCursor_FunctionDecl` located in the main file.  Offsets and positions are
those produced by the `rustclang` helpers on the parent (function) cursor and
the body cursor:
* `funcStart`  = `range_from_cursor_extent(parent).0`
* `bodyStart`, `bodyEnd` = `range_from_cursor_extent(body)`
* `extentLine` = `position_from_cursor_extent(parent).0.0`
* `locLine`, `locColumn` = `position_from_cursor_location(parent).0`
* `configResult` = the outcome of `config_string_from_cursor` composed with
  `Config::from_comment_lines` for this function (the comment pipeline,
  modelled separately below); `Ok Config::default()` when the function has no
  documentation comment. -/
structure FnEvent where
  name : String
  funcStart : Nat
  bodyStart : Nat
  bodyEnd : Nat
  extentLine : Nat
  locLine : Nat
  locColumn : Nat
  returns : String
  args : List String
  filename : String
  configResult : Except Alert Config

/-- Models `function_name.starts_with(DEFAULT_FUNCTION_PREFIX)` (character
level; byte and character indexing agree on the ASCII prefix). -/
def hasTestPrefix (name : String) : Bool :=
  DEFAULT_FUNCTION_PREFIX.toList.isPrefixOf name.toList

/-- Models the byte slice `function_name[DEFAULT_FUNCTION_PREFIX.len()..]`. -/
def testNamePart (name : String) : String :=
  String.mk (name.toList.drop DEFAULT_FUNCTION_PREFIX.toList.length)

/-- Models `valid_function_name_from_cursor`, specialized to function-decl
cursors (the kind guard cannot fire inside `filter`, which only passes
function parents) and to a successful snippet read.  Returns the optional
`(full name, name without prefix)` pair plus the accumulated warnings. -/
def valid_function_name (contents : List Char) (filename : String)
    (extentLine locLine locColumn : Nat) (name : String) :
    Option (String × String) × List Alert :=
  if hasTestPrefix name then
    let test_name_part := testNamePart name
    if test_name_part = "" then
      (none,
        [Alert.warning
          { description := "function only contains prefix part aka. `" ++ name ++ "`"
            note := ["due to having no name the test will be ignored"]
            evidence := some (AlertExample.code
              { code := contents
                fix := [{ relative_line := extentLine - 1
                          column := locColumn + name.length
                          comment := "add a name for the test like `sum_test` or anything you like`" }]
                line := locLine
                file := filename }) }])
    else
      (some (name, test_name_part), [])
  else
    (none, [])

/-- Accumulator state of one `visitor::visit` call: models the thread-local
`TEST_STACK`, `CLEAN_STACK`, `WARNINGS`, `MAIN` and `ERROR` cells after they
are cleared at the start of `visit`. -/
structure VisitState where
  test_stack : List ParsedTest
  clean_stack : List (Nat × Nat × Bool)
  warnings : List Alert
  main : Option (ParsedTest × Nat × Nat)
  error : Option Alert

/-- The cleared accumulator state. -/
def VisitState.init : VisitState :=
  { test_stack := [], clean_stack := [], warnings := [], main := none, error := none }

/-- The `CLEAN_STACK` entry pushed for one function-body event (lines 963-968
of `extract.rs`): for `main` the whole template+body span tagged `true`, for
every other function the body span tagged `false`.  Note that this push
happens before the qualifying-name filter. -/
def clean_entry (e : FnEvent) : Nat × Nat × Bool :=
  if e.name = "main" then (e.funcStart, e.bodyEnd, true)
  else (e.bodyStart, e.bodyEnd, false)

/-- The duplicate-main error (lines 1103-1145 of `extract.rs`), for a
successful file read: the evidence shows the second `main`'s source line and
the fix annotation names the first `main`'s line and column. -/
def duplicateMainAlert (codeLine : List Char) (filename : String)
    (mainLine mainColumn oldLine oldColumn : Nat) : Alert :=
  Alert.error
    { description := "file contains multiple main() functions"
      note := []
      evidence := some (AlertExample.code
        { line := mainLine
          code := codeLine
          file := filename
          fix := [{ relative_line := 0
                    column := mainColumn
                    comment := "already encountered a main() on line " ++ toString oldLine
                      ++ ", column " ++ toString oldColumn }] }) }

/-- Rust `str::lines` on a character list: split on `'\n'`, dropping the
final empty fragment produced by a trailing newline. -/
def rustLines (s : List Char) : List (List Char) :=
  if s.isEmpty then []
  else
    let parts := s.splitOn '\n'
    if s.getLast? = some '\n' then parts.dropLast else parts

/-- One invocation of the `filter` callback of `visitor::visit` on a
function-body event, acting on the accumulator state.  `CXChildVisit_Break`
is modelled by setting `error` (the surrounding fold then ignores later
events); `CXChildVisit_Continue` by returning the updated state. -/
def filterStep (contents : List Char) (st : VisitState) (e : FnEvent) : VisitState :=
  let st1 := { st with clean_stack := st.clean_stack ++ [clean_entry e] }
  let vfn := valid_function_name contents e.filename e.extentLine e.locLine e.locColumn e.name
  let st2 := { st1 with warnings := st1.warnings ++ vfn.2 }
  let nameInfo : Option (String × String) :=
    match vfn.1 with
    | some valid => some valid
    | none => if e.name = "main" then some (e.name, "") else none
  match nameInfo with
  | none => st2
  | some (full_function_name, full_cesty_name) =>
    match e.configResult with
    | Except.error err => { st2 with error := some err }
    | Except.ok config =>
      let test : ParsedTest :=
        { config := config
          function :=
            { returns := e.returns, args := e.args
              name := full_function_name, name_slice := full_cesty_name }
          range :=
            { body := (e.bodyStart, e.bodyEnd)
              template := (e.funcStart, e.bodyStart - 1) } }
      if test.function.name = "main" then
        match st2.main with
        | some old =>
          { st2 with error := some (duplicateMainAlert
              ((rustLines contents).getD (e.locLine - 1) []) e.filename
              e.locLine e.locColumn old.2.1 old.2.2) }
        | none => { st2 with main := some (test, e.locLine, e.locColumn) }
      else
        { st2 with test_stack := st2.test_stack ++ [test] }

/-- The full traversal: `clang_visitChildren` drives `filter` over every
event; once `ERROR` is set the callback's effects are discarded (`Break`). -/
def runEvents (contents : List Char) (events : List FnEvent) : VisitState :=
  events.foldl (fun st e => if st.error.isSome then st else filterStep contents st e)
    VisitState.init

/-- Rust `String::replace_range(start..stop, repl)` on a character list. -/
def replaceRange (s : List Char) (start stop : Nat) (repl : List Char) : List Char :=
  s.take start ++ repl ++ s.drop stop

/-- The `templated` view (lines 1203-1209 of `extract.rs`): every recorded
range is replaced in reverse push order, `main`'s range by nothing and every
other range by a single statement terminator `;`. -/
def synthesizeTemplated (contents : List Char) (clean : List (Nat × Nat × Bool)) :
    List Char :=
  clean.reverse.foldl
    (fun acc c => replaceRange acc c.1 c.2.1 (if c.2.2 then [] else [';'])) contents

/-- The environment synthesis (lines 1194-1210 of `extract.rs`): `full` is the
untouched text, `mainless` deletes `main`'s template-start-to-body-end span,
`templated` applies the recorded clean-stack ranges back to front. -/
def synthesize (contents : List Char) (clean : List (Nat × Nat × Bool))
    (mainEntry : Option (ParsedTest × Nat × Nat)) : Environment :=
  { full := contents
    mainless :=
      match mainEntry with
      | some m => replaceRange contents m.1.range.template.1 m.1.range.body.2 []
      | none => contents
    templated := synthesizeTemplated contents clean }

/-- Models `visitor::visit`: runs the traversal, propagates a recorded error,
returns the empty result with a default environment when no test was found,
and otherwise synthesizes the environment from the recorded ranges. -/
def visit (contents : List Char) (events : List FnEvent) :
    Except Alert ((List ParsedTest × Option ParsedTest × Environment) × List Alert) :=
  let st := runEvents contents events
  match st.error with
  | some err => Except.error err
  | none =>
    if st.test_stack.isEmpty then
      Except.ok (([], none, Environment.default), st.warnings)
    else
      Except.ok ((st.test_stack, st.main.map Prod.fst,
        synthesize contents st.clean_stack st.main), st.warnings)

/-! ## Concrete traversal fixtures

A four-function file

```
int main() {A}
int cesty_a() {B}
int cesty_b() {C}
int foo() {D}
```

with the offsets/lines libclang would report for it (function extents start at
the return type; body extents run from `{` to just past `}`). -/

/-- The raw text of the fixture file. -/
def fileA : List Char :=
  "int main() {A}\nint cesty_a() {B}\nint cesty_b() {C}\nint foo() {D}".toList

/-- Traversal event for `int main() {A}` (offsets 0-14, line 1). -/
def evMain : FnEvent :=
  ⟨"main", 0, 11, 14, 1, 1, 5, "int", [], "t.c", Except.ok Config.default⟩

/-- Traversal event for `int cesty_a() {B}` (offsets 15-32, line 2). -/
def evA : FnEvent :=
  ⟨"cesty_a", 15, 29, 32, 2, 2, 5, "int", [], "t.c", Except.ok Config.default⟩

/-- Traversal event for `int cesty_b() {C}` (offsets 33-50, line 3). -/
def evB : FnEvent :=
  ⟨"cesty_b", 33, 47, 50, 3, 3, 5, "int", [], "t.c", Except.ok Config.default⟩

/-- Traversal event for `int foo() {D}` (offsets 51-64, line 4): an ordinary
function, neither `main` nor `cesty_`-prefixed. -/
def evFoo : FnEvent :=
  ⟨"foo", 51, 61, 64, 4, 4, 5, "int", [], "t.c", Except.ok Config.default⟩

/-- A second `main` event (as for a file redefining `main` on line 3). -/
def evMain2 : FnEvent :=
  ⟨"main", 20, 31, 34, 3, 3, 5, "int", [], "t.c", Except.ok Config.default⟩

/-- The `ParsedTest` the walker produces for `evMain`. -/
def mainTest : ParsedTest :=
  ⟨Config.default, ⟨"int", "main", "", []⟩, ⟨(0, 10), (11, 14)⟩⟩

/-- The `ParsedTest` the walker produces for `evA`. -/
def testA : ParsedTest :=
  ⟨Config.default, ⟨"int", "cesty_a", "a", []⟩, ⟨(15, 28), (29, 32)⟩⟩

/-- The `ParsedTest` the walker produces for `evB`. -/
def testB : ParsedTest :=
  ⟨Config.default, ⟨"int", "cesty_b", "b", []⟩, ⟨(33, 46), (47, 50)⟩⟩

/-! ## Range relations (spec §3 invariants, for claim C5) -/

/-- Half-open range `outer` wholly contains half-open range `inner`. -/
def rangeContains (outer inner : Nat × Nat) : Prop :=
  outer.1 ≤ inner.1 ∧ inner.2 ≤ outer.2

instance (o i : Nat × Nat) : Decidable (rangeContains o i) := by
  unfold rangeContains
  infer_instance

/-- Two events occupy disjoint extents (`funcStart .. bodyEnd`), as libclang
reports for distinct top-level C functions. -/
def spanDisjoint (a b : FnEvent) : Prop :=
  a.bodyEnd ≤ b.funcStart ∨ b.bodyEnd ≤ a.funcStart

instance : DecidableRel spanDisjoint := fun a b => by
  unfold spanDisjoint
  infer_instance

/-- Two clean-stack entries have disjoint half-open ranges. -/
def cleanDisjoint (a b : Nat × Nat × Bool) : Prop :=
  a.2.1 ≤ b.1 ∨ b.2.1 ≤ a.1

instance : DecidableRel cleanDisjoint := fun a b => by
  unfold cleanDisjoint
  infer_instance

/-! ## Comment extraction (`CommentVariant` and helpers in `extract.rs`)

Character-level models of the Rust `str` operations used by the comment
state machine.  `char::is_whitespace` is modelled on the ASCII whitespace
characters, which are the only ones the claims exercise. -/

/-- Models Rust `char::is_whitespace` (restricted to ASCII whitespace). -/
def isRustWhitespace (c : Char) : Bool :=
  c == ' ' || c == '\t' || c == '\n' || c == '\r' || c == '\x0b' || c == '\x0c'

/-- Models Rust `str::trim_start`. -/
def trimStart (s : List Char) : List Char := s.dropWhile isRustWhitespace

/-- Models Rust `str::trim_end`. -/
def trimEnd (s : List Char) : List Char :=
  (s.reverse.dropWhile isRustWhitespace).reverse

/-- Models Rust `str::trim`. -/
def trim (s : List Char) : List Char := trimEnd (trimStart s)

/-- Models Rust `str::find(substring)`: index of the first occurrence. -/
def findSubstr (pat : List Char) : List Char → Option Nat
  | [] => if pat.isEmpty then some 0 else none
  | c :: rest =>
    if pat.isPrefixOf (c :: rest) then some 0
    else (findSubstr pat rest).map (· + 1)

/-- Models Rust `str::find(predicate)`: index of the first matching char. -/
def findPos (p : Char → Bool) : List Char → Option Nat
  | [] => none
  | c :: rest => if p c then some 0 else (findPos p rest).map (· + 1)

/-- Models Rust `str::contains(char)` on a marker string. -/
def markContains (mark : List Char) (c : Char) : Bool :=
  mark.any (fun m => m == c)

/-- The prefix of a string up to and including its first newline (the
per-line accumulation of the `Singleline` arm of
`comment_slices_from_cursor`). -/
def takeThroughNewline : List Char → List Char
  | [] => []
  | c :: rest => if c = '\n' then [c] else c :: takeThroughNewline rest

/-- The `mark` strum property of `CommentVariant::Singleline`. -/
def singlelineMark : List Char := ['/', '/']

/-- The `open` strum property of `CommentVariant::Multiline`. -/
def multilineOpen : List Char := ['/', '*']

/-- The `close` strum property of `CommentVariant::Multiline`. -/
def multilineClose : List Char := ['*', '/']

/-- Models `CommentVariant`. -/
inductive CommentVariant where
  | Singleline
  | Multiline
deriving Repr, DecidableEq

/-- Cursor-derived inputs of the comment extraction: the file name, its
contents (for snippet evidence; reads are modelled as succeeding), the
function's extent start line `position_from_cursor_extent(cursor).0.0` and
location column `position_from_cursor_location(cursor).0.1`. -/
structure CursorInfo where
  filename : String
  fileContents : List Char
  extentLine : Nat
  locColumn : Nat
deriving Repr, DecidableEq

/-- The missing-closing-delimiter error of
`CommentVariant::comment_slices_from_cursor` (lines 316-346 of `extract.rs`),
for a successful file read. -/
def missingClosingAlert (info : CursorInfo) : Alert :=
  Alert.error
    { description := "multiline comment is missing closing delimiter `*/`"
      note := []
      evidence := some (AlertExample.code
        { code := info.fileContents
          fix := [{ relative_line := info.extentLine - 1
                    column := info.locColumn
                    comment := "this function has a multiline comment above it that doesn't have a closing `*/` delimiter" }]
          line := info.extentLine
          file := info.filename }) }

/-- The unrecognized-comment-variant error of `comment_slices_from_cursor`
(lines 396-461 of `extract.rs`), for a successful file read. -/
def unknownVariantAlert (info : CursorInfo) : Alert :=
  Alert.error
    { description := "parsing multiple comment variants failed"
      note := ["supported comment variants are:",
        "CommentVariant::Singleline with mark `//`",
        "CommentVariant::Multiline with opening delimiter `/*` and closing delimiter `*/`"]
      evidence := some (AlertExample.code
        { code := info.fileContents
          fix := [{ relative_line := info.extentLine - 1
                    column := info.locColumn
                    comment := "this function has a unknown comment variant that was not detected." }]
          line := info.extentLine
          file := info.filename }) }

/-- The inner accumulation loop of the `Singleline` arm of
`comment_slices_from_cursor` (lines 357-382 of `extract.rs`): repeatedly take
one line (through its newline) while the remaining text starts, after leading
whitespace, with the line marker; the final (blank) entry that terminates the
Rust loop is retained in the accumulation exactly as in the source.  The
`fuel` parameter bounds the iteration count; every iteration that recurses
consumes at least one character, so `comment.length + 1` is always enough. -/
def singlelineAccum : Nat → List Char → List (List Char) → List (List Char) × List Char
  | 0, comment, acc => (acc, comment)
  | fuel + 1, comment, acc =>
    let entry : List Char × List Char :=
      if singlelineMark.isPrefixOf (trimStart comment) then
        let line := takeThroughNewline comment
        (line, comment.drop line.length)
      else ([], comment)
    if (trim entry.1).isEmpty then (acc ++ [entry.1], entry.2)
    else singlelineAccum fuel entry.2 (acc ++ [entry.1])

/-- The main loop of `comment_slices_from_cursor` (lines 276-465 of
`extract.rs`): while the remaining comment text is non-blank, try the comment
variants in declaration order (`Singleline`, then `Multiline`) against the
start of the text; a `Multiline` opener without its closing delimiter is the
missing-closing-delimiter error, and text matching no variant is the
unrecognized-variant error.  `fuel` as in `singlelineAccum`. -/
def commentSlicesLoop (info : CursorInfo) :
    Nat → List Char → List (List Char × CommentVariant) →
    Except Alert (List (List Char × CommentVariant))
  | 0, _, acc => Except.ok acc
  | fuel + 1, comment, acc =>
    if (trim comment).isEmpty then Except.ok acc
    else if singlelineMark.isPrefixOf comment then
      let res := singlelineAccum (comment.length + 1) comment []
      commentSlicesLoop info fuel res.2 (acc ++ [(res.1.flatten, CommentVariant.Singleline)])
    else if multilineOpen.isPrefixOf comment then
      match findSubstr multilineClose comment with
      | none => Except.error (missingClosingAlert info)
      | some position =>
        let split0 := comment.take (position + multilineClose.length)
        let split1 := comment.drop (position + multilineClose.length)
        commentSlicesLoop info fuel (trim split1) (acc ++ [(split0, CommentVariant.Multiline)])
    else Except.error (unknownVariantAlert info)

/-- Models `CommentVariant::comment_slices_from_cursor`, specialized to
function-decl cursors.  `rawComment = none` models
`clang_Cursor_getRawCommentText` returning no comment. -/
def comment_slices_from_cursor (info : CursorInfo) (rawComment : Option (List Char)) :
    Except Alert (Option (List (List Char × CommentVariant))) :=
  match rawComment with
  | none => Except.ok none
  | some raw =>
    let comment := trim raw
    match commentSlicesLoop info (comment.length + 1) comment [] with
    | Except.error a => Except.error a
    | Except.ok slices => Except.ok (some slices)

/-! ## Per-line extraction of the `Singleline` arm of
`config_string_from_cursor` (lines 602-680 of `extract.rs`, for claim C7) -/

/-- Outcome of handling one comment line in the `Singleline` arm of
`config_string_from_cursor`: the extracted content with its column position,
a skipped marker-only separator line, one of the two error alerts, or the
Rust panic raised by `split_at` when the position found in the raw line
exceeds the length of the start-trimmed line. -/
inductive LineOutcome where
  | extracted : List Char → Nat → LineOutcome
  | skippedSeparator : LineOutcome
  | errNoStart : LineOutcome
  | errInvalidComment : LineOutcome
  | panicSplitAt : LineOutcome
deriving Repr, DecidableEq

/-- One iteration of the per-line loop of the `Singleline` arm of
`config_string_from_cursor`: the position of the first character that is
neither a marker character nor whitespace is looked up in the *raw* line,
and the *start-trimmed* line is split at that position (the source's
`line.find(..)` followed by `trimmed.split_at(position)`). -/
def singleline_line_outcome (line : List Char) : LineOutcome :=
  let trimmed := trimStart line
  if singlelineMark.isPrefixOf trimmed then
    match findPos (fun ch => !(markContains singlelineMark ch) && !(isRustWhitespace ch)) line with
    | some position =>
      if position ≤ trimmed.length then
        LineOutcome.extracted (trimmed.drop position) position
      else LineOutcome.panicSplitAt
    | none =>
      if (findPos (fun ch => !(markContains singlelineMark ch) && !(isRustWhitespace ch))
            (trim (trimmed.drop singlelineMark.length))).isNone then
        LineOutcome.skippedSeparator
      else LineOutcome.errNoStart
  else LineOutcome.errInvalidComment

/-- Re-prefixing an extracted line with the line marker and a single space
(the round-trip operation of spec §8). -/
def reMark (content : List Char) : List Char :=
  '/' :: '/' :: ' ' :: content

/-! ## Config parsing from comment lines (`Config::from_comment_lines`,
`src/test/mod.rs` lines 261-354, for claim C6) -/

/-- One entry of the comment-line vector handed to
`Config::from_comment_lines`: the tuple
`(stripped content, original line, original file line, column offset)`. -/
structure CommentLine where
  stripped : List Char
  original : List Char
  fileLine : Nat
  colOffset : Nat
deriving Repr, DecidableEq

/-- Models `err.message().replace("\n", " ").trim()`. -/
def normalize_message (s : String) : String :=
  String.mk (trim ((s.toList).map (fun c => if c = '\n' then ' ' else c)))

/-- The joined stripped comment text that is handed to the TOML parser. -/
def joinStripped (comment_lines : List CommentLine) : List Char :=
  List.intercalate ['\n'] (comment_lines.map CommentLine.stripped)

/-- Outcome of `toml::from_str` (an external crate): either a parsed config,
or a message together with the optional start offset of the error span. -/
inductive TomlResult where
  | ok : Config → TomlResult
  | err : String → Option Nat → TomlResult

/-- Models `Config::from_comment_lines`, parameterized by the parse outcome
of the external `toml` crate.  On an error with a span, the span's start
offset into the joined text is mapped back to an original file position via
the comment-line entries; on an error without a span — or with a span whose
prefix of the joined text contains no line at all (span start `0`) — a plain
note carrying the parser's message is produced. -/
def from_comment_lines (comment_lines : List CommentLine) (path : String)
    (parse : TomlResult) : Except Alert Config :=
  match parse with
  | TomlResult.ok res => Except.ok res
  | TomlResult.err rawMessage span =>
    let message := normalize_message rawMessage
    match span with
    | some start =>
      let comment := joinStripped comment_lines
      let start_lines := rustLines (comment.take start)
      if start_lines.isEmpty then
        Except.error (Alert.error
          { description := "failed to parse TOML from comment into a Config type."
            evidence := none
            note := ["no error span was recovered, here is the error message:", message] })
      else
        let line := start_lines.length - 1
        let column := (start_lines.getLast?.getD []).length
        let cl := comment_lines.getD line ⟨[], [], 0, 0⟩
        let fullMessage := message ++ " on line " ++ toString cl.fileLine ++ ", column "
          ++ toString (cl.colOffset + column) ++ "."
        Except.error (Alert.error
          { description := "failed to parse TOML from comment into a Config type."
            evidence := some (AlertExample.code
              { line := cl.fileLine
                file := path
                code := cl.original
                fix := [{ relative_line := 0
                          column := column + cl.colOffset
                          comment := fullMessage }] })
            note := [] })
    | none =>
      Except.error (Alert.error
        { description := "failed to parse TOML from comment into a Config type."
          evidence := none
          note := ["no error span was recovered, here is the error message:", message] })

/-- Number of newline characters in a text fragment (for relating the
code's line lookup to the spec's "counting newlines up to that offset"). -/
def countNewlines (s : List Char) : Nat := s.count '\n'

/-! ## Walker step lemmas -/

/-- The entry-point name does not carry the reserved test prefix. -/
theorem main_not_prefixed : hasTestPrefix "main" = false := by
  decide

/-- A prefix-named function is never the entry point. -/
theorem prefix_ne_main {name : String}
    (h : hasTestPrefix name = true) : name ≠ "main" := by
  intro he
  rw [he] at h
  exact absurd h (by decide)

/-- Processing the first `main` event: the template+body span is recorded on
the clean stack and the test is stored as the entry point. -/
theorem filterStep_main_first (contents : List Char) (st : VisitState) (e : FnEvent)
    (cfg : Config) (hname : e.name = "main") (hcfg : e.configResult = Except.ok cfg)
    (hmain : st.main = none) :
    filterStep contents st e = { st with
      clean_stack := st.clean_stack ++ [(e.funcStart, e.bodyEnd, true)]
      warnings := st.warnings
      main := some (⟨cfg, ⟨e.returns, "main", "", e.args⟩,
        ⟨(e.funcStart, e.bodyStart - 1), (e.bodyStart, e.bodyEnd)⟩⟩,
        e.locLine, e.locColumn) } := by
  simp [filterStep, clean_entry, valid_function_name, hname, hcfg, hmain,
    main_not_prefixed]

/-- Processing a prefix-named event with a nonempty suffix: the body span is
recorded on the clean stack and the test is appended to the test stack. -/
theorem filterStep_test (contents : List Char) (st : VisitState) (e : FnEvent)
    (cfg : Config) (hp : hasTestPrefix e.name = true)
    (hs : testNamePart e.name ≠ "")
    (hcfg : e.configResult = Except.ok cfg) :
    filterStep contents st e = { st with
      clean_stack := st.clean_stack ++ [(e.bodyStart, e.bodyEnd, false)]
      test_stack := st.test_stack ++
        [⟨cfg, ⟨e.returns, e.name, testNamePart e.name, e.args⟩,
          ⟨(e.funcStart, e.bodyStart - 1), (e.bodyStart, e.bodyEnd)⟩⟩] } := by
  have hne := prefix_ne_main hp
  simp [filterStep, clean_entry, valid_function_name, hp, hs, hcfg, hne]

/-- Processing an event whose name is neither `main` nor prefix-named: no test
is recorded, but the body span is still pushed onto the clean stack. -/
theorem filterStep_skipped (contents : List Char) (st : VisitState) (e : FnEvent)
    (hp : hasTestPrefix e.name = false)
    (hne : e.name ≠ "main") :
    filterStep contents st e = { st with
      clean_stack := st.clean_stack ++ [(e.bodyStart, e.bodyEnd, false)] } := by
  simp [filterStep, clean_entry, valid_function_name, hp, hne]

/-- Processing a second `main` event: the duplicate-entry-point error is
recorded, citing the stored first occurrence. -/
theorem filterStep_main_dup (contents : List Char) (st : VisitState) (e : FnEvent)
    (cfg : Config) (old : ParsedTest × Nat × Nat) (hname : e.name = "main")
    (hcfg : e.configResult = Except.ok cfg) (hmain : st.main = some old) :
    filterStep contents st e = { st with
      clean_stack := st.clean_stack ++ [(e.funcStart, e.bodyEnd, true)]
      error := some (duplicateMainAlert ((rustLines contents).getD (e.locLine - 1) [])
        e.filename e.locLine e.locColumn old.2.1 old.2.2) } := by
  simp [filterStep, clean_entry, valid_function_name, hname, hcfg, hmain,
    main_not_prefixed]

/-! ## Claim theorems -/

/-- Claim C3, counterexample: for the embedded configuration
`[settings]` with only `stdout = true` set, the deserialized `run` field is
`false`, not its documented default `true` — the per-field serde default
`settings_bool_init` applies as soon as the table itself is present, so the
claim "`run` defaults to true ... regardless of whether the `settings` table
is absent entirely or present with only some fields set" is false. -/
theorem C3_counterexample :
    Config.settingsOfTable (some { run := none, stdout := some true, stdin := none })
      = { run := false, stdout := true, stdin := false } := by
  decide

/-- Claim C3 (amended): when the `settings` table is absent entirely, the
fields take the `Settings::default` values (`run = true`, `stdout = false`,
`stdin = false`); when the table is present, every unset field — including
`run` — takes the per-field default `false`. -/
theorem C3_amended :
    Config.settingsOfTable none = { run := true, stdout := false, stdin := false }
    ∧ ∀ t : SettingsTable,
        Config.settingsOfTable (some t)
          = { run := t.run.getD false, stdout := t.stdout.getD false,
              stdin := t.stdin.getD false } := by
  constructor
  · decide
  · intro t
    rfl

/-- Helper: every filter callback invocation pushes exactly its clean-stack
entry, whatever else it does. -/
theorem filterStep_clean_stack (contents : List Char) (st : VisitState) (e : FnEvent) :
    (filterStep contents st e).clean_stack = st.clean_stack ++ [clean_entry e] := by
  unfold filterStep
  dsimp only
  split
  · rfl
  · split
    · rfl
    · split
      · split
        · rfl
        · rfl
      · rfl

/-- Helper: the clean stack accumulated by the traversal is an in-order
sublist of the per-event entries (a prefix of the events is processed; an
error stops processing). -/
theorem foldl_clean_sublist (contents : List Char) :
    ∀ (events : List FnEvent) (st : VisitState),
      ∃ extra,
        (events.foldl (fun st e => if st.error.isSome then st else filterStep contents st e)
            st).clean_stack
          = st.clean_stack ++ extra
        ∧ List.Sublist extra (events.map clean_entry) := by
  intro events
  induction events with
  | nil =>
    intro st
    exact ⟨[], by simp, by simp⟩
  | cons e rest ih =>
    intro st
    rw [List.foldl_cons]
    by_cases h : st.error.isSome = true
    · rw [if_pos h]
      obtain ⟨extra, he, hs⟩ := ih st
      exact ⟨extra, he, by simpa using hs.cons (clean_entry e)⟩
    · rw [if_neg h]
      obtain ⟨extra, he, hs⟩ := ih (filterStep contents st e)
      refine ⟨clean_entry e :: extra, ?_, ?_⟩
      · rw [he, filterStep_clean_stack]
        simp
      · simpa using hs.cons₂ (clean_entry e)

/-- Helper: one fold step of the traversal from an error-free state applies
the filter callback. -/
theorem foldl_step_ok (contents : List Char) (st st' : VisitState) (e : FnEvent)
    (rest : List FnEvent) (herr : st.error = none)
    (hstep : filterStep contents st e = st') :
    List.foldl (fun st e => if st.error.isSome then st else filterStep contents st e)
      st (e :: rest)
    = List.foldl (fun st e => if st.error.isSome then st else filterStep contents st e)
      st' rest := by
  rw [List.foldl_cons]
  have hb : (if st.error.isSome then st else filterStep contents st e) = st' := by
    simp [herr, hstep]
  rw [hb]

/-- Helper: the recorded entry of an event ends at the event's body end and
starts no earlier than the event's function start. -/
theorem clean_entry_ranges (e : FnEvent) (h : e.funcStart ≤ e.bodyStart) :
    (clean_entry e).2.1 = e.bodyEnd ∧ e.funcStart ≤ (clean_entry e).1 := by
  unfold clean_entry
  split
  · exact ⟨rfl, le_refl _⟩
  · exact ⟨rfl, h⟩

/-- Claim C1, counterexample: in the fixture file with one entry point, two
test functions and the ordinary function `foo`, the `templated` view replaces
`foo`'s body by a statement terminator as well — the clean-stack push happens
before the qualifying-name filter — so it contains three terminator
replacements, not the claimed two (`foo`'s body `{D}` is not left intact). -/
theorem C1_counterexample :
    visit fileA [evMain, evA, evB, evFoo] =
      Except.ok (([testA, testB], some mainTest,
        { full := fileA
          mainless := "\nint cesty_a() {B}\nint cesty_b() {C}\nint foo() {D}".toList
          templated := "\nint cesty_a() ;\nint cesty_b() ;\nint foo() ;".toList }), [])
    ∧ "\nint cesty_a() ;\nint cesty_b() ;\nint foo() ;".toList
        ≠ "\nint cesty_a() ;\nint cesty_b() ;\nint foo() {D}".toList := by
  exact ⟨rfl, by decide⟩

/-- Claim C1 (amended): a function whose name is neither `main` nor
prefix-named records no test — but its body range is still pushed onto the
clean stack and neutralized during synthesis.  For a file whose only
functions are one entry point and two prefix-named test functions, the test
count is 2, the entry point is populated, and `templated` is exactly the file
text with the two test bodies replaced by statement terminators and the entry
point's template+body range removed. -/
theorem C1_amended (contents : List Char) (e1 e2 e3 : FnEvent) (cfg1 cfg2 cfg3 : Config)
    (h1 : e1.name = "main") (hc1 : e1.configResult = Except.ok cfg1)
    (h2p : hasTestPrefix e2.name = true)
    (h2s : testNamePart e2.name ≠ "")
    (hc2 : e2.configResult = Except.ok cfg2)
    (h3p : hasTestPrefix e3.name = true)
    (h3s : testNamePart e3.name ≠ "")
    (hc3 : e3.configResult = Except.ok cfg3) :
    visit contents [e1, e2, e3] =
      Except.ok (([⟨cfg2, ⟨e2.returns, e2.name, testNamePart e2.name,
            e2.args⟩, ⟨(e2.funcStart, e2.bodyStart - 1), (e2.bodyStart, e2.bodyEnd)⟩⟩,
          ⟨cfg3, ⟨e3.returns, e3.name, testNamePart e3.name,
            e3.args⟩, ⟨(e3.funcStart, e3.bodyStart - 1), (e3.bodyStart, e3.bodyEnd)⟩⟩],
        some ⟨cfg1, ⟨e1.returns, "main", "", e1.args⟩,
          ⟨(e1.funcStart, e1.bodyStart - 1), (e1.bodyStart, e1.bodyEnd)⟩⟩,
        { full := contents
          mainless := replaceRange contents e1.funcStart e1.bodyEnd []
          templated := replaceRange (replaceRange (replaceRange contents
            e3.bodyStart e3.bodyEnd [';']) e2.bodyStart e2.bodyEnd [';'])
            e1.funcStart e1.bodyEnd [] }), []) := by
  have hre : runEvents contents [e1, e2, e3]
      = (⟨[⟨cfg2, ⟨e2.returns, e2.name, testNamePart e2.name, e2.args⟩,
            ⟨(e2.funcStart, e2.bodyStart - 1), (e2.bodyStart, e2.bodyEnd)⟩⟩,
          ⟨cfg3, ⟨e3.returns, e3.name, testNamePart e3.name, e3.args⟩,
            ⟨(e3.funcStart, e3.bodyStart - 1), (e3.bodyStart, e3.bodyEnd)⟩⟩],
          [(e1.funcStart, e1.bodyEnd, true), (e2.bodyStart, e2.bodyEnd, false),
            (e3.bodyStart, e3.bodyEnd, false)],
          [],
          some (⟨cfg1, ⟨e1.returns, "main", "", e1.args⟩,
            ⟨(e1.funcStart, e1.bodyStart - 1), (e1.bodyStart, e1.bodyEnd)⟩⟩,
            e1.locLine, e1.locColumn),
          none⟩ : VisitState) := by
    rw [runEvents]
    rw [foldl_step_ok contents VisitState.init _ e1 [e2, e3] rfl rfl]
    rw [foldl_step_ok contents (filterStep contents VisitState.init e1) _ e2 [e3]
      (by rw [filterStep_main_first contents VisitState.init e1 cfg1 h1 hc1 rfl]; rfl) rfl]
    rw [foldl_step_ok contents
      (filterStep contents (filterStep contents VisitState.init e1) e2) _ e3 []
      (by rw [filterStep_main_first contents VisitState.init e1 cfg1 h1 hc1 rfl,
              filterStep_test contents _ e2 cfg2 h2p h2s hc2]; rfl) rfl]
    rw [List.foldl_nil]
    rw [filterStep_main_first contents VisitState.init e1 cfg1 h1 hc1 rfl,
        filterStep_test contents _ e2 cfg2 h2p h2s hc2,
        filterStep_test contents _ e3 cfg3 h3p h3s hc3]
    rfl
  rw [visit, hre]
  rfl

/-- Claim C1, witness for the amended theorem at the three-function fixture. -/
theorem C1_witness :
    (evMain.name = "main" ∧ evMain.configResult = Except.ok Config.default
      ∧ hasTestPrefix evA.name = true
      ∧ testNamePart evA.name ≠ ""
      ∧ hasTestPrefix evB.name = true
      ∧ testNamePart evB.name ≠ "")
    ∧ visit fileA [evMain, evA, evB] =
      Except.ok (([⟨Config.default, ⟨evA.returns, evA.name,
            testNamePart evA.name, evA.args⟩,
            ⟨(evA.funcStart, evA.bodyStart - 1), (evA.bodyStart, evA.bodyEnd)⟩⟩,
          ⟨Config.default, ⟨evB.returns, evB.name,
            testNamePart evB.name, evB.args⟩,
            ⟨(evB.funcStart, evB.bodyStart - 1), (evB.bodyStart, evB.bodyEnd)⟩⟩],
        some ⟨Config.default, ⟨evMain.returns, "main", "", evMain.args⟩,
          ⟨(evMain.funcStart, evMain.bodyStart - 1), (evMain.bodyStart, evMain.bodyEnd)⟩⟩,
        { full := fileA
          mainless := replaceRange fileA evMain.funcStart evMain.bodyEnd []
          templated := replaceRange (replaceRange (replaceRange fileA
            evB.bodyStart evB.bodyEnd [';']) evA.bodyStart evA.bodyEnd [';'])
            evMain.funcStart evMain.bodyEnd [] }), []) :=
  ⟨⟨rfl, rfl, by decide, by decide, by decide, by decide⟩,
    C1_amended fileA evMain evA evB Config.default Config.default Config.default
      rfl rfl (by decide) (by decide) rfl (by decide) (by decide) rfl⟩

/-- Claim C2, counterexample: for a traversal that finds zero qualifying
functions in a nonempty file, `visit` returns the *default* environment — all
three views are the empty string — so `full` is not the untouched file text
as claimed. -/
theorem C2_counterexample :
    visit ("int x;").toList [] = Except.ok (([], none, Environment.default), [])
    ∧ Environment.default.full ≠ ("int x;").toList := by
  exact ⟨rfl, by decide⟩

/-- Claim C2 (amended): for every traversal that records no test and no
error, `visit` succeeds with an empty test list, no entry point, and the
default environment, whose `full`, `mainless` and `templated` are all the
empty string (identical to one another, but not to the file text). -/
theorem C2_amended (contents : List Char) (events : List FnEvent)
    (h1 : (runEvents contents events).error = none)
    (h2 : (runEvents contents events).test_stack = []) :
    visit contents events =
      Except.ok (([], none, { full := [], mainless := [], templated := [] }),
        (runEvents contents events).warnings) := by
  rw [visit, h1]
  simp [h2, Environment.default]

/-- Claim C2, witness for the amended theorem at an empty traversal over a
nonempty file. -/
theorem C2_witness :
    ((runEvents ("int x;").toList []).error = none
      ∧ (runEvents ("int x;").toList []).test_stack = [])
    ∧ visit ("int x;").toList [] =
        Except.ok (([], none, { full := [], mainless := [], templated := [] }),
          (runEvents ("int x;").toList []).warnings) :=
  ⟨⟨rfl, rfl⟩, C2_amended ("int x;").toList [] rfl rfl⟩

/-- Claim C4: a traversal meeting two function bodies both named exactly
`main` (whose comment configurations parse) errors out with the
multiple-main alert: its evidence cites the second occurrence's line and the
fix annotation names the first occurrence's line and column. -/
theorem C4_theorem (contents : List Char) (e1 e2 : FnEvent) (cfg1 cfg2 : Config)
    (h1 : e1.name = "main") (h2 : e2.name = "main")
    (hc1 : e1.configResult = Except.ok cfg1) (hc2 : e2.configResult = Except.ok cfg2) :
    visit contents [e1, e2] = Except.error (Alert.error
      { description := "file contains multiple main() functions"
        note := []
        evidence := some (AlertExample.code
          { line := e2.locLine
            code := (rustLines contents).getD (e2.locLine - 1) []
            file := e2.filename
            fix := [{ relative_line := 0
                      column := e2.locColumn
                      comment := "already encountered a main() on line " ++ toString e1.locLine
                        ++ ", column " ++ toString e1.locColumn }] }) }) := by
  have hre : runEvents contents [e1, e2]
      = (⟨[], [(e1.funcStart, e1.bodyEnd, true), (e2.funcStart, e2.bodyEnd, true)],
          [],
          some (⟨cfg1, ⟨e1.returns, "main", "", e1.args⟩,
            ⟨(e1.funcStart, e1.bodyStart - 1), (e1.bodyStart, e1.bodyEnd)⟩⟩,
            e1.locLine, e1.locColumn),
          some (duplicateMainAlert ((rustLines contents).getD (e2.locLine - 1) [])
            e2.filename e2.locLine e2.locColumn e1.locLine e1.locColumn)⟩ : VisitState) := by
    rw [runEvents]
    rw [foldl_step_ok contents VisitState.init _ e1 [e2] rfl rfl]
    rw [foldl_step_ok contents (filterStep contents VisitState.init e1) _ e2 []
      (by rw [filterStep_main_first contents VisitState.init e1 cfg1 h1 hc1 rfl]; rfl) rfl]
    rw [List.foldl_nil]
    rw [filterStep_main_first contents VisitState.init e1 cfg1 h1 hc1 rfl]
    rw [filterStep_main_dup contents _ e2 cfg2
      (⟨cfg1, ⟨e1.returns, "main", "", e1.args⟩,
        ⟨(e1.funcStart, e1.bodyStart - 1), (e1.bodyStart, e1.bodyEnd)⟩⟩,
        e1.locLine, e1.locColumn) h2 hc2 rfl]
    rfl
  rw [visit, hre]
  simp [duplicateMainAlert]

/-- Claim C4, witness at the fixture file with a second `main` on line 3. -/
theorem C4_witness :
    (evMain.name = "main" ∧ evMain2.name = "main"
      ∧ evMain.configResult = Except.ok Config.default
      ∧ evMain2.configResult = Except.ok Config.default)
    ∧ visit fileA [evMain, evMain2] = Except.error (Alert.error
        { description := "file contains multiple main() functions"
          note := []
          evidence := some (AlertExample.code
            { line := evMain2.locLine
              code := (rustLines fileA).getD (evMain2.locLine - 1) []
              file := evMain2.filename
              fix := [{ relative_line := 0
                        column := evMain2.locColumn
                        comment := "already encountered a main() on line "
                          ++ toString evMain.locLine ++ ", column "
                          ++ toString evMain.locColumn }] }) }) :=
  ⟨⟨rfl, rfl, rfl, rfl⟩,
    C4_theorem fileA evMain evMain2 Config.default Config.default rfl rfl rfl rfl⟩

/-- Claim C5, counterexample: the entry-point `ParsedTest` produced by the
walker has `template = (funcStart, bodyStart - 1)` and
`body = (bodyStart, bodyEnd)` — the template range ends *before* the body
range begins, so it does not wholly contain the body range ((0, 10) does not
contain (11, 14) for the fixture's `main`). -/
theorem C5_counterexample :
    visit fileA [evMain, evA] =
      Except.ok (([testA], some mainTest,
        { full := fileA
          mainless := "\nint cesty_a() {B}\nint cesty_b() {C}\nint foo() {D}".toList
          templated := "\nint cesty_a() ;\nint cesty_b() {C}\nint foo() {D}".toList }), [])
    ∧ mainTest.range.template = (0, 10) ∧ mainTest.range.body = (11, 14)
    ∧ ¬ rangeContains (0, 10) (11, 14) := by
  exact ⟨rfl, rfl, rfl, by decide⟩

/-- Claim C5 (amended): for events with well-formed, pairwise-disjoint
function extents (as libclang reports for distinct C functions), the recorded
clean-stack modification ranges are pairwise disjoint; and each event's
recorded range — for the entry point the template-start-to-body-end removal
range, for other functions the body range itself — wholly contains that
event's body range.  (The `template` field alone, `(funcStart, bodyStart-1)`,
lies strictly before the body and does not contain it.) -/
theorem C5_amended (contents : List Char) (events : List FnEvent)
    (hwf : ∀ e ∈ events, e.funcStart ≤ e.bodyStart)
    (hdisj : events.Pairwise spanDisjoint) :
    ((runEvents contents events).clean_stack).Pairwise cleanDisjoint
    ∧ ∀ e ∈ events,
        rangeContains ((clean_entry e).1, (clean_entry e).2.1)
          (e.bodyStart, e.bodyEnd) := by
  constructor
  · obtain ⟨extra, he, hs⟩ := foldl_clean_sublist contents events VisitState.init
    have hrw : (runEvents contents events).clean_stack = extra := by
      rw [runEvents, he]
      simp [VisitState.init]
    have hmap : (events.map clean_entry).Pairwise cleanDisjoint := by
      rw [List.pairwise_map]
      refine hdisj.imp_of_mem ?_
      intro a b ha hb hab
      rcases hab with hab | hab
      · exact Or.inl (by
          rw [(clean_entry_ranges a (hwf a ha)).1]
          exact le_trans hab (clean_entry_ranges b (hwf b hb)).2)
      · exact Or.inr (by
          rw [(clean_entry_ranges b (hwf b hb)).1]
          exact le_trans hab (clean_entry_ranges a (hwf a ha)).2)
    rw [hrw]
    exact hmap.sublist hs
  · intro e he
    unfold rangeContains clean_entry
    split
    · exact ⟨hwf e he, le_refl _⟩
    · exact ⟨le_refl _, le_refl _⟩

/-- Claim C5, witness for the amended theorem at the two-function fixture. -/
theorem C5_witness :
    ((∀ e ∈ [evMain, evA], e.funcStart ≤ e.bodyStart)
      ∧ [evMain, evA].Pairwise spanDisjoint)
    ∧ (((runEvents fileA [evMain, evA]).clean_stack).Pairwise cleanDisjoint
      ∧ ∀ e ∈ [evMain, evA],
          rangeContains ((clean_entry e).1, (clean_entry e).2.1)
            (e.bodyStart, e.bodyEnd)) :=
  ⟨⟨by decide, by decide⟩, C5_amended fileA [evMain, evA] (by decide) (by decide)⟩

/-- Claim C9: environment synthesis is a pure function of the file text, the
recorded modification ranges and the optional entry-point record; two runs on
the same inputs produce byte-identical `full`, `mainless` and `templated`
views. -/
theorem C9_theorem (contents : List Char) (clean : List (Nat × Nat × Bool))
    (mainEntry : Option (ParsedTest × Nat × Nat)) (env1 env2 : Environment)
    (h1 : env1 = synthesize contents clean mainEntry)
    (h2 : env2 = synthesize contents clean mainEntry) :
    env1.full = env2.full ∧ env1.mainless = env2.mainless
      ∧ env1.templated = env2.templated := by
  subst h1
  subst h2
  exact ⟨rfl, rfl, rfl⟩

/-- Claim C9, witness at the fixture file and its recorded ranges. -/
theorem C9_witness :
    (synthesize fileA [(0, 14, true), (29, 32, false)] (some (mainTest, 1, 5))
        = synthesize fileA [(0, 14, true), (29, 32, false)] (some (mainTest, 1, 5)))
    ∧ ((synthesize fileA [(0, 14, true), (29, 32, false)] (some (mainTest, 1, 5))).full
          = (synthesize fileA [(0, 14, true), (29, 32, false)] (some (mainTest, 1, 5))).full
      ∧ (synthesize fileA [(0, 14, true), (29, 32, false)] (some (mainTest, 1, 5))).mainless
          = (synthesize fileA [(0, 14, true), (29, 32, false)] (some (mainTest, 1, 5))).mainless
      ∧ (synthesize fileA [(0, 14, true), (29, 32, false)] (some (mainTest, 1, 5))).templated
          = (synthesize fileA [(0, 14, true), (29, 32, false)] (some (mainTest, 1, 5))).templated) :=
  ⟨rfl, C9_theorem fileA [(0, 14, true), (29, 32, false)] (some (mainTest, 1, 5)) _ _ rfl rfl⟩

/-- Claim C10: when the traversal recorded an entry point but no test, `visit`
succeeds with an empty test list, `none` in place of the discovered entry
point (it is silently discarded), and the default environment whose three
strings are all empty. -/
theorem C10_theorem (contents : List Char) (events : List FnEvent)
    (m : ParsedTest × Nat × Nat)
    (h1 : (runEvents contents events).error = none)
    (h2 : (runEvents contents events).test_stack = [])
    (h3 : (runEvents contents events).main = some m) :
    visit contents events =
      Except.ok (([], none, { full := [], mainless := [], templated := [] }),
        (runEvents contents events).warnings)
    ∧ (runEvents contents events).main = some m := by
  refine ⟨?_, h3⟩
  rw [visit, h1]
  simp [h2, Environment.default]

/-- Claim C10, witness at a traversal that meets only the fixture's `main`. -/
theorem C10_witness :
    ((runEvents fileA [evMain]).error = none
      ∧ (runEvents fileA [evMain]).test_stack = []
      ∧ (runEvents fileA [evMain]).main = some (mainTest, 1, 5))
    ∧ (visit fileA [evMain] =
        Except.ok (([], none, { full := [], mainless := [], templated := [] }),
          (runEvents fileA [evMain]).warnings)
      ∧ (runEvents fileA [evMain]).main = some (mainTest, 1, 5)) :=
  ⟨⟨rfl, rfl, rfl⟩, C10_theorem fileA [evMain] (mainTest, 1, 5) rfl rfl rfl⟩

/-! ## Text helper lemmas -/

/-- Splitting on newlines yields one more fragment than there are newlines. -/
theorem length_splitOn_newline (s : List Char) :
    (s.splitOn '\n').length = countNewlines s + 1 := by
  induction s with
  | nil => simp [List.splitOn, List.splitOnP_nil, countNewlines]
  | cons c rest ih =>
    rw [List.splitOn] at ih ⊢
    rw [List.splitOnP_cons]
    by_cases h : c = '\n'
    · subst h
      simp [countNewlines, List.count_cons, ih]
    · have hb : (c == '\n') = false := by simp [h]
      simp [hb, countNewlines, List.count_cons, ih, h]

/-- Rust `lines()` of a nonempty string is nonempty. -/
theorem rustLines_ne_nil (s : List Char) (h : s ≠ []) : rustLines s ≠ [] := by
  unfold rustLines
  rw [if_neg (by simpa using h)]
  by_cases hl : s.getLast? = some '\n'
  · rw [if_pos hl]
    have hm : '\n' ∈ s := List.mem_of_getLast?_eq_some hl
    have hc : 0 < countNewlines s := by
      unfold countNewlines
      exact List.count_pos_iff.mpr hm
    intro hnil
    have hlen := congrArg List.length hnil
    rw [List.length_dropLast, length_splitOn_newline] at hlen
    simp at hlen
    omega
  · rw [if_neg hl]
    exact List.splitOnP_ne_nil _ _

/-- For a nonempty prefix not ending in a newline, the number of Rust lines
is the newline count plus one. -/
theorem rustLines_length_no_trailing (s : List Char) (h1 : s ≠ [])
    (h2 : s.getLast? ≠ some '\n') :
    (rustLines s).length = countNewlines s + 1 := by
  unfold rustLines
  rw [if_neg (by simpa using h1), if_neg h2]
  exact length_splitOn_newline s

/-- Rust `trim` of a string whose first character is not whitespace is
nonempty. -/
theorem trim_cons_not_ws (c : Char) (l : List Char) (h : isRustWhitespace c = false) :
    (trim (c :: l)).isEmpty = false := by
  unfold trim trimStart trimEnd
  simp only [List.dropWhile_cons, h, Bool.false_eq_true, if_false]
  have hne : (c :: l).reverse.dropWhile isRustWhitespace ≠ [] := by
    intro hnil
    rw [List.dropWhile_eq_nil_iff] at hnil
    have hc := hnil c (by simp)
    rw [h] at hc
    exact absurd hc (by simp)
  simp [List.isEmpty_eq_false, hne]
  exact ⟨c, Or.inr rfl, h⟩

/-! ## Claims C6, C7, C8 -/

/-- Claim C8: a raw documentation comment that (after trimming) opens with
the multiline delimiter but contains no closing delimiter makes comment
extraction fail with the missing-closing-delimiter error: the description
names the `*/` delimiter and the evidence line is the function's declaration
line (the extent start line of the function cursor). -/
theorem C8_theorem (info : CursorInfo) (raw rest : List Char)
    (h1 : trim raw = '/' :: '*' :: rest)
    (h2 : findSubstr multilineClose ('/' :: '*' :: rest) = none) :
    comment_slices_from_cursor info (some raw) = Except.error (Alert.error
      { description := "multiline comment is missing closing delimiter `*/`"
        note := []
        evidence := some (AlertExample.code
          { code := info.fileContents
            fix := [{ relative_line := info.extentLine - 1
                      column := info.locColumn
                      comment := "this function has a multiline comment above it that doesn't have a closing `*/` delimiter" }]
            line := info.extentLine
            file := info.filename }) }) := by
  have htr : (trim ('/' :: '*' :: rest)).isEmpty = false :=
    trim_cons_not_ws '/' ('*' :: rest) (by decide)
  have hsp : singlelineMark.isPrefixOf ('/' :: '*' :: rest) = false := rfl
  have hmp : multilineOpen.isPrefixOf ('/' :: '*' :: rest) = true := by
    cases rest <;> rfl
  simp only [comment_slices_from_cursor, h1]
  rw [commentSlicesLoop]
  simp [htr, hsp, hmp, h2, missingClosingAlert]

/-- Claim C8, witness: an unterminated `/* x` comment above a function whose
declaration starts on line 4, column 5. -/
theorem C8_witness :
    (trim ("/* x".toList) = '/' :: '*' :: (" x".toList)
      ∧ findSubstr multilineClose ('/' :: '*' :: (" x".toList)) = none)
    ∧ comment_slices_from_cursor ⟨"t.c", "CODE".toList, 4, 5⟩ (some ("/* x".toList))
        = Except.error (Alert.error
          { description := "multiline comment is missing closing delimiter `*/`"
            note := []
            evidence := some (AlertExample.code
              { code := "CODE".toList
                fix := [{ relative_line := 3
                          column := 5
                          comment := "this function has a multiline comment above it that doesn't have a closing `*/` delimiter" }]
                line := 4
                file := "t.c" }) }) :=
  ⟨⟨by decide, by decide⟩,
    C8_theorem ⟨"t.c", "CODE".toList, 4, 5⟩ ("/* x".toList) (" x".toList)
      (by decide) (by decide)⟩

/-- Claim C7, counterexample: the line `//x` (no space after the marker) is
accepted by the extractor, which extracts `x`; re-prefixing with the marker
and a single space yields `// x`, whose trimmed content differs from the
original line's trimmed content `//x` — so the round trip as claimed fails. -/
theorem C7_counterexample :
    singleline_line_outcome ("//x".toList) = LineOutcome.extracted ['x'] 2
    ∧ trim (reMark ['x']) ≠ trim ("//x".toList) := by
  exact ⟨rfl, by decide⟩

/-- Claim C7 (amended): the round trip holds for the lines the extractor
leaves intact — those consisting of the marker, exactly one space, and
content whose first character is neither a marker character nor whitespace:
such a line extracts exactly its content, and re-prefixing the content with
the marker and a single space reproduces the line verbatim, so the trimmed
contents agree.  (Lines with extra, missing or repeated marker/space
characters are extracted modulo that decoration and do not round-trip.) -/
theorem C7_amended (c : Char) (rest : List Char)
    (h1 : isRustWhitespace c = false) (h2 : c ≠ '/') :
    singleline_line_outcome ('/' :: '/' :: ' ' :: c :: rest)
      = LineOutcome.extracted (c :: rest) 3
    ∧ trim (reMark (c :: rest)) = trim ('/' :: '/' :: ' ' :: c :: rest) := by
  constructor
  · have hm : markContains singlelineMark c = false := by
      simp [markContains, singlelineMark, beq_eq_false_iff_ne]
      exact Ne.symm h2
    have p1 : (!(markContains singlelineMark '/') && !(isRustWhitespace '/')) = false := by
      decide
    have p2 : (!(markContains singlelineMark ' ') && !(isRustWhitespace ' ')) = false := by
      decide
    have p3 : (!(markContains singlelineMark c) && !(isRustWhitespace c)) = true := by
      rw [hm, h1]
      rfl
    have hfind : findPos (fun ch => !(markContains singlelineMark ch) && !(isRustWhitespace ch))
        ('/' :: '/' :: ' ' :: c :: rest) = some 3 := by
      simp [findPos, p1, p2, p3]
    have htrim : trimStart ('/' :: '/' :: ' ' :: c :: rest)
        = '/' :: '/' :: ' ' :: c :: rest := by
      have hws : isRustWhitespace '/' = false := by decide
      simp [trimStart, List.dropWhile_cons, hws]
    have hpf : singlelineMark.isPrefixOf ('/' :: '/' :: ' ' :: c :: rest) = true := rfl
    have hlen : 3 ≤ ('/' :: '/' :: ' ' :: c :: rest).length := by
      simp
    simp [singleline_line_outcome, htrim, hfind, hpf, hlen]
  · rfl

/-- Claim C7, witness for the amended round trip at the line `// x`. -/
theorem C7_witness :
    (isRustWhitespace 'x' = false ∧ 'x' ≠ '/')
    ∧ (singleline_line_outcome ('/' :: '/' :: ' ' :: 'x' :: [])
        = LineOutcome.extracted ('x' :: []) 3
      ∧ trim (reMark ('x' :: [])) = trim ('/' :: '/' :: ' ' :: 'x' :: [])) :=
  ⟨⟨by decide, by decide⟩, C7_amended 'x' [] (by decide) (by decide)⟩

/-- Claim C6, counterexample: a parse failure whose recoverable span starts
at byte offset 0 is *not* remapped — the prefix of the joined text is empty,
so the code falls into the plain-note branch and the Error carries no
evidence at all, contradicting the claim that every recoverable span yields
evidence showing the original source line. -/
theorem C6_counterexample :
    from_comment_lines [⟨['x'], "// x".toList, 5, 3⟩] "f.c" (TomlResult.err "m" (some 0))
      = Except.error (Alert.error
        { description := "failed to parse TOML from comment into a Config type."
          evidence := none
          note := ["no error span was recovered, here is the error message:", "m"] }) := by
  rfl

/-- Claim C6 (amended): when the reported span starts at a positive offset
(so the prefix of the joined text is nonempty), the logical line index is the
number of Rust lines of the prefix minus one — which equals the newline count
of the prefix whenever the offset does not immediately follow a newline — the
index is mapped through the comment-line entries to the original file line,
the fix column is the entry's column offset plus the offset within the
stripped line, and the evidence shows the original source line; when no span
is recoverable (or the span starts at offset zero, per the counterexample),
the Error falls back to a plain note containing the parser's message. -/
theorem C6_amended (comment_lines : List CommentLine) (path raw : String)
    (start L col : Nat) (cl : CommentLine)
    (hpre : (joinStripped comment_lines).take start ≠ [])
    (hL : (rustLines ((joinStripped comment_lines).take start)).length - 1 = L)
    (hcl : comment_lines.getD L ⟨[], [], 0, 0⟩ = cl)
    (hcol : ((rustLines ((joinStripped comment_lines).take start)).getLast?.getD []).length
        = col) :
    from_comment_lines comment_lines path (TomlResult.err raw (some start))
      = Except.error (Alert.error
        { description := "failed to parse TOML from comment into a Config type."
          evidence := some (AlertExample.code
            { line := cl.fileLine
              file := path
              code := cl.original
              fix := [{ relative_line := 0
                        column := col + cl.colOffset
                        comment := normalize_message raw ++ " on line " ++ toString cl.fileLine
                          ++ ", column " ++ toString (cl.colOffset + col) ++ "." }] })
          note := [] })
    ∧ from_comment_lines comment_lines path (TomlResult.err raw none)
      = Except.error (Alert.error
        { description := "failed to parse TOML from comment into a Config type."
          evidence := none
          note := ["no error span was recovered, here is the error message:",
            normalize_message raw] })
    ∧ (((joinStripped comment_lines).take start).getLast? ≠ some '\n' →
        L = countNewlines ((joinStripped comment_lines).take start)) := by
  refine ⟨?_, rfl, ?_⟩
  · have hne : (rustLines ((joinStripped comment_lines).take start)).isEmpty = false := by
      simp [List.isEmpty_eq_false]
      exact rustLines_ne_nil _ hpre
    simp only [from_comment_lines, hne, Bool.false_eq_true, if_false]
    rw [hL, hcl, hcol]
  · intro hnl
    rw [← hL, rustLines_length_no_trailing _ hpre hnl]
    simp

/-- Claim C6, witness: two stripped lines `ab` / `cd` joined as `ab\ncd`, a
parse failure at offset 4 (inside the second line): the evidence shows the
original second line `//cd` at file line 7, fix column 3 = column offset 2
plus offset 1 within the stripped line. -/
theorem C6_witness :
    ((joinStripped [⟨"ab".toList, "// ab".toList, 5, 3⟩,
        ⟨"cd".toList, "//cd".toList, 7, 2⟩]).take 4 ≠ []
      ∧ (rustLines ((joinStripped [⟨"ab".toList, "// ab".toList, 5, 3⟩,
          ⟨"cd".toList, "//cd".toList, 7, 2⟩]).take 4)).length - 1 = 1)
    ∧ from_comment_lines [⟨"ab".toList, "// ab".toList, 5, 3⟩,
        ⟨"cd".toList, "//cd".toList, 7, 2⟩] "f.c" (TomlResult.err "m" (some 4))
      = Except.error (Alert.error
        { description := "failed to parse TOML from comment into a Config type."
          evidence := some (AlertExample.code
            { line := 7
              file := "f.c"
              code := "//cd".toList
              fix := [{ relative_line := 0
                        column := 3
                        comment := normalize_message "m" ++ " on line " ++ toString 7
                          ++ ", column " ++ toString 3 ++ "." }] })
          note := [] }) :=
  ⟨⟨by decide, by decide⟩,
    ((C6_amended [⟨"ab".toList, "// ab".toList, 5, 3⟩, ⟨"cd".toList, "//cd".toList, 7, 2⟩]
      "f.c" "m" 4 1 1 ⟨"cd".toList, "//cd".toList, 7, 2⟩
      (by decide) (by decide) (by decide) (by decide)).1)⟩

end Cesty
